import Mathlib

/-!
Verification of the background-generator gradient pipeline.

Shallow embedding of the core algorithms of the repository:
hex color encoding and the brand palette (`src/utils/colors.ts`),
palette/blob extraction and composition analysis (ControlsPanel),
the gradient compositor and post-process stack (`CanvasRenderer.tsx`).

Real-valued quantities are modelled over `ℚ`.  Calls to the platform
trigonometric functions and to `Math.sqrt` / `Math.random` are modelled
by abstract oracle parameters: the theorems hold for every oracle, hence
in particular for the true `Math.sin` / `Math.cos` / `Math.sqrt` values.
`Math.floor` is `Int.floor`, `Math.round` is `jsRound` below (round half
up, as in JavaScript), `Math.min` / `Math.max` are `min` / `max`.
-/

/-- Oracle for the platform trigonometric functions used by the seeded
pseudo-position technique (`Math.sin` / `Math.cos` in the source). -/
structure Trig where
  sin : ℚ → ℚ
  cos : ℚ → ℚ

/-- JavaScript `Math.round`: round half toward positive infinity. -/
def jsRound (q : ℚ) : ℤ := ⌊q + 1/2⌋

/-! ### Color utilities (src/utils/colors.ts) -/

/-- Hex digit characters produced by JavaScript `Number.toString(16)`
(lowercase). -/
def toHexDigitChar (n : ℕ) : Char :=
  if n < 10 then Char.ofNat ('0'.toNat + n) else Char.ofNat ('a'.toNat + n - 10)

/-- Hex digit classification of the regex character class `[a-f\d]` with
the `i` (case-insensitive) flag, from `hexToRgb`. -/
def isHexDigitChar (c : Char) : Bool :=
  ('0' ≤ c && c ≤ '9') || ('a' ≤ c && c ≤ 'f') || ('A' ≤ c && c ≤ 'F')

/-- Numeric value of a hex digit, as produced by `parseInt(s, 16)` on a
single digit (either case). -/
def hexDigitVal (c : Char) : ℕ :=
  if '0' ≤ c ∧ c ≤ '9' then c.toNat - '0'.toNat
  else if 'a' ≤ c ∧ c ≤ 'f' then c.toNat - 'a'.toNat + 10
  else if 'A' ≤ c ∧ c ≤ 'F' then c.toNat - 'A'.toNat + 10
  else 0

/-- Hexadecimal digit string of a natural number, most significant digit
first, as produced by JavaScript `Number.toString(16)` on a nonnegative
integer. -/
def natToHexChars (n : ℕ) : List Char :=
  if _h : n < 16 then [toHexDigitChar n]
  else natToHexChars (n / 16) ++ [toHexDigitChar (n % 16)]
decreasing_by exact Nat.div_lt_self (by omega) (by omega)

/-- Model of `rgbToHex` from src/utils/colors.ts:
`"#" + ((1 << 24) + (r << 16) + (g << 8) + b).toString(16).slice(1)`
(the leading `#` prepended to the hex digits of the shifted sum, with the
leading `1` digit sliced off). -/
def rgbToHex (r g b : ℕ) : String :=
  ⟨'#' :: (natToHexChars (2 ^ 24 + r * 2 ^ 16 + g * 2 ^ 8 + b)).drop 1⟩

/-- Core of `hexToRgb` on the character list of the input: the regex
`^#?([a-f\d]{2})([a-f\d]{2})([a-f\d]{2})$/i` strips an optional `#`,
requires exactly six hex digits, and parses three byte values; on a
non-match the source returns `[0, 0, 0]`. -/
def hexToRgbChars (cs : List Char) : ℕ × ℕ × ℕ :=
  let t := match cs with
    | '#' :: rest => rest
    | other => other
  match t with
  | [c1, c2, c3, c4, c5, c6] =>
    if (isHexDigitChar c1 && isHexDigitChar c2 && isHexDigitChar c3 &&
        isHexDigitChar c4 && isHexDigitChar c5 && isHexDigitChar c6) = true then
      (hexDigitVal c1 * 16 + hexDigitVal c2,
       hexDigitVal c3 * 16 + hexDigitVal c4,
       hexDigitVal c5 * 16 + hexDigitVal c6)
    else (0, 0, 0)
  | _ => (0, 0, 0)

/-- Model of `hexToRgb` from src/utils/colors.ts. -/
def hexToRgb (s : String) : ℕ × ℕ × ℕ := hexToRgbChars s.data

/-- The `Color` record of src/utils/colors.ts. -/
structure Color where
  name : String
  hex : String
  rgb : ℕ × ℕ × ℕ
deriving DecidableEq

/-- The `brandColors` table of src/utils/colors.ts: seven color families
(in source insertion order), each with nine shades 900 down to 100.
Family names are stored capitalized, as `BRAND_COLORS` capitalizes them. -/
def brandColorsTable : List (String × List (String × String)) :=
  [("Red", [("900", "#3C0009"), ("800", "#5D000D"), ("700", "#850013"),
            ("600", "#B0001C"), ("500", "#DB1A30"), ("400", "#F13D51"),
            ("300", "#F5737C"), ("200", "#F998A2"), ("100", "#FCC3C9")]),
   ("Orange", [("900", "#3F1D00"), ("800", "#5E2B00"), ("700", "#874100"),
               ("600", "#B75C00"), ("500", "#EF7800"), ("400", "#F1933D"),
               ("300", "#F5A969"), ("200", "#F9C198"), ("100", "#FDDDC3")]),
   ("Yellow", [("900", "#3F3300"), ("800", "#5E4B00"), ("700", "#876C00"),
               ("600", "#B69000"), ("500", "#D9A800"), ("400", "#FABD13"),
               ("300", "#F8C752"), ("200", "#F9D388"), ("100", "#FDE6C1")]),
   ("Green", [("900", "#002015"), ("800", "#00422B"), ("700", "#006638"),
              ("600", "#008F44"), ("500", "#00C16A"), ("400", "#22E067"),
              ("300", "#46F16D"), ("200", "#91F3AE"), ("100", "#CAF9D1")]),
   ("Blue", [("900", "#001435"), ("800", "#002A6A"), ("700", "#0042AD"),
             ("600", "#005DD4"), ("500", "#168EFF"), ("400", "#399FFF"),
             ("300", "#6CAFFF"), ("200", "#90C6FF"), ("100", "#C1E1FF")]),
   ("Purple", [("900", "#160B2F"), ("800", "#2F165B"), ("700", "#50219B"),
               ("600", "#6D2BD7"), ("500", "#8B45FF"), ("400", "#A870FF"),
               ("300", "#C38CFF"), ("200", "#D7B3FF"), ("100", "#E7D9FF")]),
   ("Pink", [("900", "#3D0020"), ("800", "#6A0040"), ("700", "#9C0068"),
             ("600", "#CC188A"), ("500", "#F54CB3"), ("400", "#F779C7"),
             ("300", "#F89FD5"), ("200", "#FABEE0"), ("100", "#FDD9ED")])]

/-- Model of `BRAND_COLORS` from src/utils/colors.ts: the flattened brand table,
with `rgb` computed by `hexToRgb` exactly as in the source. -/
def BRAND_COLORS : List Color :=
  brandColorsTable.flatMap (fun fam =>
    fam.2.map (fun sh => ⟨fam.1 ++ " " ++ sh.1, sh.2, hexToRgb sh.2⟩))

/-- The mid-tone pool built by `getRandomMidToneColors`: shades 400, 500,
600 of every family, in family order. -/
def midTonePool : List Color :=
  brandColorsTable.flatMap (fun fam =>
    (["400", "500", "600"].filterMap (fun sh =>
      (fam.2.lookup sh).map (fun hex => (⟨fam.1 ++ " " ++ sh, hex, hexToRgb hex⟩ : Color)))))

/-! ### Lemmas for the hex round trip -/

theorem isHexDigitChar_toHexDigitChar {n : ℕ} (h : n < 16) :
    isHexDigitChar (toHexDigitChar n) = true := by
  interval_cases n <;> decide

theorem hexDigitVal_toHexDigitChar {n : ℕ} (h : n < 16) :
    hexDigitVal (toHexDigitChar n) = n := by
  interval_cases n <;> decide

theorem natToHexChars_step (q r : ℕ) (hq : 0 < q) (hr : r < 16) :
    natToHexChars (q * 16 + r) = natToHexChars q ++ [toHexDigitChar r] := by
  rw [natToHexChars]
  have hge : ¬ (q * 16 + r < 16) := by omega
  have hdiv : (q * 16 + r) / 16 = q := by omega
  have hmod : (q * 16 + r) % 16 = r := by omega
  simp only [hge, dite_false, hdiv, hmod]

theorem natToHexChars_one : natToHexChars 1 = ['1'] := by
  rw [natToHexChars]
  decide

theorem natToHexChars_bytes (r g b : ℕ) (hr : r ≤ 255) (hg : g ≤ 255) (hb : b ≤ 255) :
    natToHexChars (2 ^ 24 + r * 2 ^ 16 + g * 2 ^ 8 + b)
      = ['1', toHexDigitChar (r / 16), toHexDigitChar (r % 16),
         toHexDigitChar (g / 16), toHexDigitChar (g % 16),
         toHexDigitChar (b / 16), toHexDigitChar (b % 16)] := by
  have hrw : 2 ^ 24 + r * 2 ^ 16 + g * 2 ^ 8 + b
      = ((((((1 * 16 + r / 16) * 16 + r % 16) * 16 + g / 16) * 16 + g % 16) * 16
          + b / 16) * 16 + b % 16) := by omega
  rw [hrw]
  rw [natToHexChars_step _ _ (by omega) (by omega)]
  rw [natToHexChars_step _ _ (by omega) (by omega)]
  rw [natToHexChars_step _ _ (by omega) (by omega)]
  rw [natToHexChars_step _ _ (by omega) (by omega)]
  rw [natToHexChars_step _ _ (by omega) (by omega)]
  rw [natToHexChars_step _ _ (by omega) (by omega)]
  rw [natToHexChars_one]
  simp

theorem hexToRgb_rgbToHex (r g b : ℕ) (hr : r ≤ 255) (hg : g ≤ 255) (hb : b ≤ 255) :
    hexToRgb (rgbToHex r g b) = (r, g, b) := by
  have e1 := natToHexChars_bytes r g b hr hg hb
  show hexToRgbChars (rgbToHex r g b).data = (r, g, b)
  have e2 : (rgbToHex r g b).data
      = '#' :: [toHexDigitChar (r / 16), toHexDigitChar (r % 16),
                toHexDigitChar (g / 16), toHexDigitChar (g % 16),
                toHexDigitChar (b / 16), toHexDigitChar (b % 16)] := by
    show ('#' :: (natToHexChars (2 ^ 24 + r * 2 ^ 16 + g * 2 ^ 8 + b)).drop 1) = _
    rw [e1]
    rfl
  rw [e2]
  simp only [hexToRgbChars]
  rw [isHexDigitChar_toHexDigitChar (by omega : r / 16 < 16),
      isHexDigitChar_toHexDigitChar (by omega : r % 16 < 16),
      isHexDigitChar_toHexDigitChar (by omega : g / 16 < 16),
      isHexDigitChar_toHexDigitChar (by omega : g % 16 < 16),
      isHexDigitChar_toHexDigitChar (by omega : b / 16 < 16),
      isHexDigitChar_toHexDigitChar (by omega : b % 16 < 16)]
  simp only [Bool.and_self, if_true]
  rw [hexDigitVal_toHexDigitChar (by omega : r / 16 < 16),
      hexDigitVal_toHexDigitChar (by omega : r % 16 < 16),
      hexDigitVal_toHexDigitChar (by omega : g / 16 < 16),
      hexDigitVal_toHexDigitChar (by omega : g % 16 < 16),
      hexDigitVal_toHexDigitChar (by omega : b / 16 < 16),
      hexDigitVal_toHexDigitChar (by omega : b % 16 < 16)]
  have : r / 16 * 16 + r % 16 = r := by omega
  have : g / 16 * 16 + g % 16 = g := by omega
  have : b / 16 * 16 + b % 16 = b := by omega
  simp_all

/-- C10: for all channel values in [0, 255], `hexToRgb` inverts
`rgbToHex`, and every entry of `BRAND_COLORS` has its `rgb` field equal
to the exact decode of its `hex` field. -/
theorem hexToRgb_rgbToHex_roundtrip_and_brand_colors_invariant :
    (∀ r g b : ℕ, r ≤ 255 → g ≤ 255 → b ≤ 255 →
        hexToRgb (rgbToHex r g b) = (r, g, b)) ∧
    (∀ c ∈ BRAND_COLORS, c.rgb = hexToRgb c.hex) := by
  refine ⟨fun r g b hr hg hb => hexToRgb_rgbToHex r g b hr hg hb, ?_⟩
  intro c hc
  simp only [BRAND_COLORS, List.mem_flatMap, List.mem_map] at hc
  obtain ⟨fam, _, sh, _, rfl⟩ := hc
  rfl

/-- Witness for C10 at the Blue 500 channel values (59, 130, 246). -/
theorem hexToRgb_rgbToHex_roundtrip_witness :
    hexToRgb (rgbToHex 59 130 246) = (59, 130, 246) :=
  hexToRgb_rgbToHex_roundtrip_and_brand_colors_invariant.1 59 130 246
    (by norm_num) (by norm_num) (by norm_num)

/-! ### Gradient compositor: shape counts and center opacities
(CanvasRenderer.tsx, per-style functions) -/

/-- Organic style, no-blob branch (CanvasRenderer lines 222-227):
`floor(2 + density * (15 - 2)) + floor(intensity * 3)` shapes. -/
def organicShapeCount (ι δ : ℚ) : ℤ :=
  ⌊2 + δ * (15 - 2)⌋ + ⌊ι * 3⌋

/-- The `colorBalance` factor of the organic no-blob branch (line 267):
`max(0.3, 1 - i * 0.04)`. -/
def organicColorBalance (i : ℕ) : ℚ := max (3/10) (1 - (i : ℚ) * (1/25))

/-- Organic center opacity (lines 266-268):
`max(0, min(255, floor((0.3 + intensity * 0.5) * colorBalance * 255)))`. -/
def organicCenterOpacity (ι : ℚ) (i : ℕ) : ℤ :=
  max 0 (min 255 ⌊(3/10 + ι * (1/2)) * organicColorBalance i * 255⌋)

/-- Linear style layer count (lines 345-359), where the source first
scales density by 1.5 and intensity by 1.2. -/
def linearLayerCount (ι δ : ℚ) : ℤ :=
  ⌊3 + (δ * (3/2)) * (12 - 3)⌋ + ⌊(ι * (6/5)) * 4⌋

/-- Linear center opacity (line 401): `floor((0.2 + intensity * 0.6) * 255)`. -/
def linearCenterOpacity (ι : ℚ) : ℤ := ⌊(1/5 + ι * (3/5)) * 255⌋

/-- Radial style center count (lines 466-480). -/
def radialCenterCount (ι δ : ℚ) : ℤ :=
  ⌊2 + (δ * (3/2)) * (8 - 2)⌋ + ⌊(ι * (6/5)) * 3⌋

/-- Radial center opacity (line 528): `floor((0.3 + intensity * 0.7) * 255)`. -/
def radialCenterOpacity (ι : ℚ) : ℤ := ⌊(3/10 + ι * (7/10)) * 255⌋

/-- Wave (mesh) triangle count (lines 619-633). -/
def waveTriangleCount (ι δ : ℚ) : ℤ :=
  ⌊4 + (δ * (3/2)) * (16 - 4)⌋ + ⌊(ι * (6/5)) * 6⌋

/-- Wave zone opacity (line 704): `floor((0.25 + intensity * 0.65) * 255)`. -/
def waveZoneOpacity (ι : ℚ) : ℤ := ⌊(1/4 + ι * (13/20)) * 255⌋

/-- Sunburst ray count (lines 800-828): `scaledDensity = density * 1.5`,
`baseRayCount = floor(16 + scaledDensity * (64 - 16))`,
`rayCount = max(16, baseRayCount)`.  Note the source clamps only from
below. -/
def sunburstRayCount (δ : ℚ) : ℤ :=
  max 16 ⌊16 + (δ * (3/2)) * (64 - 16)⌋

/-- Sunburst per-ray base opacity (line 870): `0.15 + scaledIntensity * 0.35`
with `scaledIntensity = intensity * 1.2`. -/
def sunburstBaseOpacity (ι : ℚ) : ℚ := 3/20 + (ι * (6/5)) * (7/20)

/-- Sunburst per-ray variation (line 871): `0.8 + sin(i * 0.5) * 0.4`,
with the sine value abstracted as `s`. -/
def sunburstRayVariation (s : ℚ) : ℚ := 4/5 + s * (2/5)

/-- Sunburst `finalOpacity` (line 872). -/
def sunburstFinalOpacity (s ι : ℚ) : ℤ :=
  ⌊sunburstBaseOpacity ι * sunburstRayVariation s * 255⌋

/-- Sunburst ray center opacity (line 874):
`floor(min(255, finalOpacity * 1.2))`. -/
def sunburstCenterOpacity (s ι : ℚ) : ℤ :=
  ⌊min 255 ((sunburstFinalOpacity s ι : ℚ) * (6/5))⌋

/-! ### Monotonicity lemmas for C4 -/

theorem organicShapeCount_mono {ι₁ ι₂ : ℚ} (δ : ℚ) (h : ι₁ ≤ ι₂) :
    organicShapeCount ι₁ δ ≤ organicShapeCount ι₂ δ := by
  unfold organicShapeCount
  have := Int.floor_le_floor (α := ℚ) (show ι₁ * 3 ≤ ι₂ * 3 by linarith)
  omega

theorem organicCenterOpacity_mono {ι₁ ι₂ : ℚ} (i : ℕ) (h : ι₁ ≤ ι₂) :
    organicCenterOpacity ι₁ i ≤ organicCenterOpacity ι₂ i := by
  unfold organicCenterOpacity
  have hc : (0 : ℚ) ≤ organicColorBalance i :=
    le_trans (by norm_num) (le_max_left _ _)
  have harg : (3/10 + ι₁ * (1/2)) * organicColorBalance i * 255
      ≤ (3/10 + ι₂ * (1/2)) * organicColorBalance i * 255 := by
    nlinarith
  have := Int.floor_le_floor harg
  omega

theorem linearLayerCount_mono {ι₁ ι₂ : ℚ} (δ : ℚ) (h : ι₁ ≤ ι₂) :
    linearLayerCount ι₁ δ ≤ linearLayerCount ι₂ δ := by
  unfold linearLayerCount
  have := Int.floor_le_floor (α := ℚ)
    (show (ι₁ * (6/5)) * 4 ≤ (ι₂ * (6/5)) * 4 by linarith)
  omega

theorem linearCenterOpacity_mono {ι₁ ι₂ : ℚ} (h : ι₁ ≤ ι₂) :
    linearCenterOpacity ι₁ ≤ linearCenterOpacity ι₂ :=
  Int.floor_le_floor (by nlinarith)

theorem radialCenterCount_mono {ι₁ ι₂ : ℚ} (δ : ℚ) (h : ι₁ ≤ ι₂) :
    radialCenterCount ι₁ δ ≤ radialCenterCount ι₂ δ := by
  unfold radialCenterCount
  have := Int.floor_le_floor (α := ℚ)
    (show (ι₁ * (6/5)) * 3 ≤ (ι₂ * (6/5)) * 3 by linarith)
  omega

theorem radialCenterOpacity_mono {ι₁ ι₂ : ℚ} (h : ι₁ ≤ ι₂) :
    radialCenterOpacity ι₁ ≤ radialCenterOpacity ι₂ :=
  Int.floor_le_floor (by nlinarith)

theorem waveTriangleCount_mono {ι₁ ι₂ : ℚ} (δ : ℚ) (h : ι₁ ≤ ι₂) :
    waveTriangleCount ι₁ δ ≤ waveTriangleCount ι₂ δ := by
  unfold waveTriangleCount
  have := Int.floor_le_floor (α := ℚ)
    (show (ι₁ * (6/5)) * 6 ≤ (ι₂ * (6/5)) * 6 by linarith)
  omega

theorem waveZoneOpacity_mono {ι₁ ι₂ : ℚ} (h : ι₁ ≤ ι₂) :
    waveZoneOpacity ι₁ ≤ waveZoneOpacity ι₂ :=
  Int.floor_le_floor (by nlinarith)

theorem sunburstCenterOpacity_mono {ι₁ ι₂ s : ℚ} (h : ι₁ ≤ ι₂)
    (hs : -1 ≤ s) :
    sunburstCenterOpacity s ι₁ ≤ sunburstCenterOpacity s ι₂ := by
  unfold sunburstCenterOpacity
  have hv : (0 : ℚ) ≤ sunburstRayVariation s := by
    unfold sunburstRayVariation
    linarith
  have hfo : sunburstFinalOpacity s ι₁ ≤ sunburstFinalOpacity s ι₂ := by
    unfold sunburstFinalOpacity sunburstBaseOpacity
    refine Int.floor_le_floor ?_
    nlinarith
  refine Int.floor_le_floor ?_
  refine min_le_min (le_refl _) ?_
  have : (sunburstFinalOpacity s ι₁ : ℚ) ≤ (sunburstFinalOpacity s ι₂ : ℚ) := by
    exact_mod_cast hfo
  nlinarith

/-- C4: for every style, with the other parameters fixed, the computed
shape count and the computed center opacity are monotone nondecreasing in
the intensity parameter (for sunburst, `s` is the abstracted per-ray sine
value `sin(i * 0.5)`, which lies in [-1, 1]). -/
theorem shape_count_and_center_opacity_monotone_in_intensity
    (ι₁ ι₂ δ : ℚ) (i : ℕ) (s : ℚ) (h : ι₁ ≤ ι₂) (hs₁ : -1 ≤ s) (_hs₂ : s ≤ 1) :
    organicShapeCount ι₁ δ ≤ organicShapeCount ι₂ δ ∧
    organicCenterOpacity ι₁ i ≤ organicCenterOpacity ι₂ i ∧
    linearLayerCount ι₁ δ ≤ linearLayerCount ι₂ δ ∧
    linearCenterOpacity ι₁ ≤ linearCenterOpacity ι₂ ∧
    radialCenterCount ι₁ δ ≤ radialCenterCount ι₂ δ ∧
    radialCenterOpacity ι₁ ≤ radialCenterOpacity ι₂ ∧
    waveTriangleCount ι₁ δ ≤ waveTriangleCount ι₂ δ ∧
    waveZoneOpacity ι₁ ≤ waveZoneOpacity ι₂ ∧
    sunburstRayCount δ ≤ sunburstRayCount δ ∧
    sunburstCenterOpacity s ι₁ ≤ sunburstCenterOpacity s ι₂ :=
  ⟨organicShapeCount_mono δ h, organicCenterOpacity_mono i h,
   linearLayerCount_mono δ h, linearCenterOpacity_mono h,
   radialCenterCount_mono δ h, radialCenterOpacity_mono h,
   waveTriangleCount_mono δ h, waveZoneOpacity_mono h,
   le_refl _, sunburstCenterOpacity_mono h hs₁⟩

/-- Witness for C4 at intensity 0 ≤ 1, density 0.7, index 0, sine value 0. -/
theorem shape_count_monotone_witness :
    (0 : ℚ) ≤ 1 ∧
    organicShapeCount 0 (7/10) ≤ organicShapeCount 1 (7/10) ∧
    organicCenterOpacity 0 0 ≤ organicCenterOpacity 1 0 ∧
    linearLayerCount 0 (7/10) ≤ linearLayerCount 1 (7/10) ∧
    linearCenterOpacity 0 ≤ linearCenterOpacity 1 ∧
    radialCenterCount 0 (7/10) ≤ radialCenterCount 1 (7/10) ∧
    radialCenterOpacity 0 ≤ radialCenterOpacity 1 ∧
    waveTriangleCount 0 (7/10) ≤ waveTriangleCount 1 (7/10) ∧
    waveZoneOpacity 0 ≤ waveZoneOpacity 1 ∧
    sunburstRayCount (7/10) ≤ sunburstRayCount (7/10) ∧
    sunburstCenterOpacity 0 0 ≤ sunburstCenterOpacity 0 1 :=
  ⟨by norm_num,
   shape_count_and_center_opacity_monotone_in_intensity 0 1 (7/10) 0 0
     (by norm_num) (by norm_num) (by norm_num)⟩

/-- C5 (evidence of the bug): at the application's default density 0.7 the
sunburst ray count is `max(16, floor(16 + 0.7 * 1.5 * 48)) = 66`, which
exceeds the documented upper bound of 64 rays. -/
theorem sunburstRayCount_default_exceeds_64 :
    sunburstRayCount (7/10) = 66 ∧ 64 < sunburstRayCount (7/10) := by
  have hfl : ⌊(16 : ℚ) + ((7/10) * (3/2)) * (64 - 16)⌋ = 66 := by
    rw [Int.floor_eq_iff]
    norm_num
  unfold sunburstRayCount
  rw [hfl]
  norm_num

/-! ### Style dispatch (CanvasRenderer.tsx, createGradient lines 942-960) -/

/-- The five compositing algorithms of the Gradient Compositor. -/
inductive GradientStyle where
  | organic
  | linear
  | radial
  | wave
  | sunburst
deriving DecidableEq

/-- The `switch (gradientStyle)` of `createGradient` (lines 942-960),
abstracted to which per-style function is invoked and which `time` value
is passed to it.  In the `default` branch the source calls
`createOrganicGradient(ctx, effectiveWidth, effectiveHeight)` without the
`time` argument, so `time` takes its declared default value 0. -/
def createGradientDispatch (style : String) (time : ℚ) : GradientStyle × ℚ :=
  if style = "organic" then (GradientStyle.organic, time)
  else if style = "linear" then (GradientStyle.linear, time)
  else if style = "radial" then (GradientStyle.radial, time)
  else if style = "wave" then (GradientStyle.wave, time)
  else if style = "sunburst" then (GradientStyle.sunburst, time)
  else (GradientStyle.organic, 0)

/-- C9: any style value outside the five supported names (for example the
`spiral` value that the Composition Analyzer can emit) falls through to
the default branch, which runs the organic algorithm with time 0
regardless of the caller-supplied time. -/
theorem createGradient_default_runs_organic_at_time_zero
    (style : String) (t : ℚ)
    (h : style ∉ (["organic", "linear", "radial", "wave", "sunburst"] : List String)) :
    createGradientDispatch style t = (GradientStyle.organic, 0) := by
  simp only [List.mem_cons, List.not_mem_nil, or_false, not_or] at h
  obtain ⟨h1, h2, h3, h4, h5⟩ := h
  simp [createGradientDispatch, h1, h2, h3, h4, h5]

/-- Witness for C9 at the analyzer's `spiral` output and time 42. -/
theorem createGradient_default_witness :
    "spiral" ∉ (["organic", "linear", "radial", "wave", "sunburst"] : List String) ∧
    createGradientDispatch "spiral" 42 = (GradientStyle.organic, 0) :=
  ⟨by decide, createGradient_default_runs_organic_at_time_zero "spiral" 42 (by decide)⟩

/-! ### Ripple warp (CanvasRenderer.tsx, applyRippleEffect lines 1352-1395) -/

/-- Horizontal source coordinate of the ripple warp:
`sourceX = max(0, min(width - 1, round(x + sin(y * freqY + timeOffset) * ampX)))`. -/
def rippleSourceX (T : Trig) (freqY ampX tOff : ℚ) (w x y : ℕ) : ℤ :=
  max 0 (min ((w : ℤ) - 1) (jsRound ((x : ℚ) + T.sin ((y : ℚ) * freqY + tOff) * ampX)))

/-- Vertical source coordinate of the ripple warp:
`sourceY = max(0, min(height - 1, round(y + sin(x * freqX + timeOffset * 1.3) * ampY)))`. -/
def rippleSourceY (T : Trig) (freqX ampY tOff : ℚ) (h x y : ℕ) : ℤ :=
  max 0 (min ((h : ℤ) - 1) (jsRound ((y : ℚ) + T.sin ((x : ℚ) * freqX + tOff * (13/10)) * ampY)))

/-- The ripple warp as a pixel-buffer transform: the output pixel at
`(x, y)` is the input pixel at the clamped remapped source position.
`buf x y` is the RGBA value stored at `(x, y)`. -/
def applyRippleEffect {α : Type} (T : Trig) (freqX freqY ampX ampY tOff : ℚ)
    (buf : ℕ → ℕ → α) (w h x y : ℕ) : α :=
  buf (rippleSourceX T freqY ampX tOff w x y).toNat
      (rippleSourceY T freqX ampY tOff h x y).toNat

theorem jsRound_natCast (x : ℕ) : jsRound (x : ℚ) = (x : ℤ) := by
  unfold jsRound
  rw [Int.floor_eq_iff]
  constructor
  · push_cast
    linarith
  · push_cast
    linarith

/-- C6: with both ripple amplitudes zero, the ripple warp is the identity
on every pixel of any buffer. -/
theorem ripple_zero_amplitude_is_identity {α : Type} (T : Trig)
    (freqX freqY tOff : ℚ) (buf : ℕ → ℕ → α) (w h x y : ℕ)
    (hx : x < w) (hy : y < h) :
    applyRippleEffect T freqX freqY 0 0 tOff buf w h x y = buf x y := by
  have hsx : rippleSourceX T freqY 0 tOff w x y = (x : ℤ) := by
    unfold rippleSourceX
    rw [mul_zero, add_zero, jsRound_natCast]
    rw [min_eq_right (by omega), max_eq_right (by omega)]
  have hsy : rippleSourceY T freqX 0 tOff h x y = (y : ℤ) := by
    unfold rippleSourceY
    rw [mul_zero, add_zero, jsRound_natCast]
    rw [min_eq_right (by omega), max_eq_right (by omega)]
  unfold applyRippleEffect
  rw [hsx, hsy, Int.toNat_natCast, Int.toNat_natCast]

/-- Witness for C6 on a 4-by-3 buffer at pixel (0, 1), with the identity
oracle standing in for sine. -/
theorem ripple_zero_amplitude_witness :
    (0 : ℕ) < 4 ∧ (1 : ℕ) < 3 ∧
    applyRippleEffect (Trig.mk (fun q => q) (fun q => q)) (1/50) (3/200) 0 0 0
      (fun x y => (x, y)) 4 3 0 1 = (0, 1) :=
  ⟨by norm_num, by norm_num,
   ripple_zero_amplitude_is_identity (Trig.mk (fun q => q) (fun q => q))
     (1/50) (3/200) 0 (fun x y => (x, y)) 4 3 0 1 (by norm_num) (by norm_num)⟩

/-! ### Render pipeline stages (CanvasRenderer.tsx, drawBackground lines
1397-1492 and renderAtResolution lines 1495-1544) -/

/-- The pixel-pipeline stages of the renderer. -/
inductive Stage where
  | gradient
  | blur
  | grain
  | vignette
  | overlay
  | ripple
deriving DecidableEq

/-- The configuration fields that gate post-process stages. -/
structure PPConfig where
  noiseIntensity : ℚ
  isAnimated : Bool
  overlayEnabled : Bool
  overlayIntensity : ℚ
  rippleEnabled : Bool

/-- Stage sequence of `drawBackground` (lines 1444-1488) for a nonempty
palette: gradient, then blur / grain / vignette when static (`!isAnimated
|| time === 0`), grain additionally gated on `noiseIntensity > 0`, then
the overlay effect when enabled with positive intensity, then the ripple
warp when enabled. -/
def drawBackgroundPipeline (c : PPConfig) (time : ℚ) : List Stage :=
  [Stage.gradient]
  ++ (if c.isAnimated = false ∨ time = 0 then [Stage.blur] else [])
  ++ (if c.noiseIntensity > 0 ∧ (c.isAnimated = false ∨ time = 0) then [Stage.grain] else [])
  ++ (if c.isAnimated = false ∨ time = 0 then [Stage.vignette] else [])
  ++ (if c.overlayEnabled = true ∧ c.overlayIntensity > 0 then [Stage.overlay] else [])
  ++ (if c.rippleEnabled = true then [Stage.ripple] else [])

/-- Stage sequence of `renderAtResolution` (lines 1506-1543): gradient at
time 0, blur, grain when `noiseIntensity > 0`, overlay when enabled with
positive intensity.  The source contains no vignette step and no ripple
step on this path. -/
def renderAtResolutionPipeline (c : PPConfig) : List Stage :=
  [Stage.gradient, Stage.blur]
  ++ (if c.noiseIntensity > 0 then [Stage.grain] else [])
  ++ (if c.overlayEnabled = true ∧ c.overlayIntensity > 0 then [Stage.overlay] else [])

/-- Counterexample for C3: with all effects off, the live static pipeline
applies the vignette stage but the export pipeline does not, so the two
stage sequences differ. -/
theorem renderAtResolution_differs_from_live_pipeline :
    renderAtResolutionPipeline (PPConfig.mk 0 false false 0 false)
      ≠ drawBackgroundPipeline (PPConfig.mk 0 false false 0 false) 0 := by
  simp [renderAtResolutionPipeline, drawBackgroundPipeline]

/-- C3 (amended): the export pipeline equals the live static (time 0)
pipeline with the vignette and ripple stages removed; the remaining
stages appear in the same order under the same gate conditions. -/
theorem renderAtResolution_is_live_pipeline_without_vignette_ripple
    (c : PPConfig) :
    renderAtResolutionPipeline c
      = (drawBackgroundPipeline c 0).filter
          (fun s => !(s == Stage.vignette || s == Stage.ripple)) := by
  by_cases h1 : c.noiseIntensity > 0 <;>
    by_cases h2 : c.overlayEnabled = true ∧ c.overlayIntensity > 0 <;>
      by_cases h3 : c.rippleEnabled = true <;>
        simp [renderAtResolutionPipeline, drawBackgroundPipeline, h1, h2, h3,
          List.filter_append]

/-! ### Seeded shape placement (CanvasRenderer.tsx) -/

/-- Organic no-blob branch, seeded center x (lines 233-234):
`seed = i * 12345`, `baseX = (sin(seed) * 0.5 + 0.5) * width`. -/
def organicSeedBaseX (T : Trig) (i : ℕ) (width : ℚ) : ℚ :=
  (T.sin ((i : ℚ) * 12345) * (1/2) + 1/2) * width

/-- Organic no-blob branch, seeded center y (line 235):
`baseY = (cos(seed * 1.3) * 0.5 + 0.5) * height`. -/
def organicSeedBaseY (T : Trig) (i : ℕ) (height : ℚ) : ℚ :=
  (T.cos ((i : ℚ) * 12345 * (13/10)) * (1/2) + 1/2) * height

/-- Organic no-blob branch, shape radius (lines 252-254):
`baseSize = 0.15 + intensity * 0.4`,
`complexityVariation = (sin(seed * 2.1) * 0.5 + 0.5) * (0.1 + density * 0.3)`,
`radius = min(width, height) * (baseSize + complexityVariation) * intensity`. -/
def organicSeedRadius (T : Trig) (i : ℕ) (ι δ width height : ℚ) : ℚ :=
  min width height
    * ((3/20 + ι * (2/5))
        + (T.sin ((i : ℚ) * 12345 * (21/10)) * (1/2) + 1/2) * (1/10 + δ * (3/10)))
    * ι

/-- Radial style, seeded center x (lines 497-498): `seed = i * 48271`,
`x = (sin(seed) * 0.5 + 0.5) * width`. -/
def radialSeedX (T : Trig) (i : ℕ) (width : ℚ) : ℚ :=
  (T.sin ((i : ℚ) * 48271) * (1/2) + 1/2) * width

/-- Radial style, seeded center y (line 499):
`y = (cos(seed * 1.4) * 0.5 + 0.5) * height`. -/
def radialSeedY (T : Trig) (i : ℕ) (height : ℚ) : ℚ :=
  (T.cos ((i : ℚ) * 48271 * (7/5)) * (1/2) + 1/2) * height

/-- Radial style, seeded base radius (line 500):
`min(width, height) * (0.3 + (sin(seed * 2.7) * 0.5 + 0.5) * 0.4)`. -/
def radialSeedBaseRadius (T : Trig) (i : ℕ) (width height : ℚ) : ℚ :=
  min width height
    * (3/10 + (T.sin ((i : ℚ) * 48271 * (27/10)) * (1/2) + 1/2) * (2/5))

/-- Radial style, final seeded radius (lines 514-516):
`sizeMultiplier = 0.6 + intensity * 1.2`,
`complexityVariation = 0.8 + density * 0.6`,
`radius = baseRadius * sizeMultiplier * complexityVariation * intensity`. -/
def radialSeedRadius (T : Trig) (i : ℕ) (ι δ width height : ℚ) : ℚ :=
  radialSeedBaseRadius T i width height * (3/5 + ι * (6/5)) * (4/5 + δ * (3/5)) * ι

/-- Wave (mesh) style, seeded anchor point x (lines 654-656):
`seed = i * 67890`, `x = (sin(seed) * 0.5 + 0.5) * width`. -/
def waveMeshPointX (T : Trig) (i : ℕ) (width : ℚ) : ℚ :=
  (T.sin ((i : ℚ) * 67890) * (1/2) + 1/2) * width

/-- Wave (mesh) style, seeded anchor point y (line 657):
`y = (cos(seed * 1.7) * 0.5 + 0.5) * height`. -/
def waveMeshPointY (T : Trig) (i : ℕ) (height : ℚ) : ℚ :=
  (T.cos ((i : ℚ) * 67890 * (17/10)) * (1/2) + 1/2) * height

/-- Sunburst center (lines 810-811): `centerX = width * 0.5`. -/
def sunburstCenterX (width : ℚ) : ℚ := width * (1/2)

/-- Sunburst center (line 811): `centerY = height * 0.5`. -/
def sunburstCenterY (height : ℚ) : ℚ := height * (1/2)

theorem scaled_fraction_const (a w₁ w₂ : ℚ) (h₁ : w₁ ≠ 0) (h₂ : w₂ ≠ 0) :
    a * w₁ / w₁ = a * w₂ / w₂ := by
  rw [mul_div_assoc, mul_div_assoc, div_self h₁, div_self h₂]

theorem min_scaled_fraction_const (a w₁ h₁ w₂ h₂ : ℚ)
    (hw₁ : 0 < w₁) (hh₁ : 0 < h₁) (hw₂ : 0 < w₂) (hh₂ : 0 < h₂) :
    min w₁ h₁ * a / min w₁ h₁ = min w₂ h₂ * a / min w₂ h₂ := by
  rw [mul_comm (min w₁ h₁) a, mul_comm (min w₂ h₂) a]
  exact scaled_fraction_const a _ _ (ne_of_gt (lt_min hw₁ hh₁)) (ne_of_gt (lt_min hw₂ hh₂))

/-- C1: every seeded (non-random) shape parameter of the compositor, when
normalized by the target dimensions, is independent of the target
resolution: seeded centers as fractions of width and height, and seeded
radii as fractions of min(width, height), agree at any two resolutions
for the same index, intensity, density and trigonometric oracle. -/
theorem seeded_composition_resolution_independent (T : Trig) (i : ℕ)
    (ι δ w₁ h₁ w₂ h₂ : ℚ)
    (hw₁ : 0 < w₁) (hh₁ : 0 < h₁) (hw₂ : 0 < w₂) (hh₂ : 0 < h₂) :
    organicSeedBaseX T i w₁ / w₁ = organicSeedBaseX T i w₂ / w₂ ∧
    organicSeedBaseY T i h₁ / h₁ = organicSeedBaseY T i h₂ / h₂ ∧
    organicSeedRadius T i ι δ w₁ h₁ / min w₁ h₁
      = organicSeedRadius T i ι δ w₂ h₂ / min w₂ h₂ ∧
    radialSeedX T i w₁ / w₁ = radialSeedX T i w₂ / w₂ ∧
    radialSeedY T i h₁ / h₁ = radialSeedY T i h₂ / h₂ ∧
    radialSeedRadius T i ι δ w₁ h₁ / min w₁ h₁
      = radialSeedRadius T i ι δ w₂ h₂ / min w₂ h₂ ∧
    waveMeshPointX T i w₁ / w₁ = waveMeshPointX T i w₂ / w₂ ∧
    waveMeshPointY T i h₁ / h₁ = waveMeshPointY T i h₂ / h₂ ∧
    sunburstCenterX w₁ / w₁ = sunburstCenterX w₂ / w₂ ∧
    sunburstCenterY h₁ / h₁ = sunburstCenterY h₂ / h₂ := by
  refine ⟨scaled_fraction_const _ _ _ (ne_of_gt hw₁) (ne_of_gt hw₂),
          scaled_fraction_const _ _ _ (ne_of_gt hh₁) (ne_of_gt hh₂),
          ?_,
          scaled_fraction_const _ _ _ (ne_of_gt hw₁) (ne_of_gt hw₂),
          scaled_fraction_const _ _ _ (ne_of_gt hh₁) (ne_of_gt hh₂),
          ?_,
          scaled_fraction_const _ _ _ (ne_of_gt hw₁) (ne_of_gt hw₂),
          scaled_fraction_const _ _ _ (ne_of_gt hh₁) (ne_of_gt hh₂),
          ?_, ?_⟩
  · unfold organicSeedRadius
    rw [div_eq_div_iff (ne_of_gt (lt_min hw₁ hh₁)) (ne_of_gt (lt_min hw₂ hh₂))]
    ring
  · unfold radialSeedRadius radialSeedBaseRadius
    rw [div_eq_div_iff (ne_of_gt (lt_min hw₁ hh₁)) (ne_of_gt (lt_min hw₂ hh₂))]
    ring
  · unfold sunburstCenterX
    rw [div_eq_div_iff (ne_of_gt hw₁) (ne_of_gt hw₂)]
    ring
  · unfold sunburstCenterY
    rw [div_eq_div_iff (ne_of_gt hh₁) (ne_of_gt hh₂)]
    ring

/-- Witness for C1 at index 3 between an 800 by 450 preview and a
2880 by 1620 export, with the identity oracle standing in for sine and
cosine. -/
theorem seeded_composition_witness :
    (0 : ℚ) < 800 ∧ (0 : ℚ) < 450 ∧ (0 : ℚ) < 2880 ∧ (0 : ℚ) < 1620 ∧
    (organicSeedBaseX (Trig.mk (fun q => q) (fun q => q)) 3 800 / 800
      = organicSeedBaseX (Trig.mk (fun q => q) (fun q => q)) 3 2880 / 2880 ∧
     organicSeedBaseY (Trig.mk (fun q => q) (fun q => q)) 3 450 / 450
      = organicSeedBaseY (Trig.mk (fun q => q) (fun q => q)) 3 1620 / 1620 ∧
     organicSeedRadius (Trig.mk (fun q => q) (fun q => q)) 3 (4/5) (7/10) 800 450 / min 800 450
      = organicSeedRadius (Trig.mk (fun q => q) (fun q => q)) 3 (4/5) (7/10) 2880 1620 / min 2880 1620 ∧
     radialSeedX (Trig.mk (fun q => q) (fun q => q)) 3 800 / 800
      = radialSeedX (Trig.mk (fun q => q) (fun q => q)) 3 2880 / 2880 ∧
     radialSeedY (Trig.mk (fun q => q) (fun q => q)) 3 450 / 450
      = radialSeedY (Trig.mk (fun q => q) (fun q => q)) 3 1620 / 1620 ∧
     radialSeedRadius (Trig.mk (fun q => q) (fun q => q)) 3 (4/5) (7/10) 800 450 / min 800 450
      = radialSeedRadius (Trig.mk (fun q => q) (fun q => q)) 3 (4/5) (7/10) 2880 1620 / min 2880 1620 ∧
     waveMeshPointX (Trig.mk (fun q => q) (fun q => q)) 3 800 / 800
      = waveMeshPointX (Trig.mk (fun q => q) (fun q => q)) 3 2880 / 2880 ∧
     waveMeshPointY (Trig.mk (fun q => q) (fun q => q)) 3 450 / 450
      = waveMeshPointY (Trig.mk (fun q => q) (fun q => q)) 3 1620 / 1620 ∧
     sunburstCenterX 800 / 800 = sunburstCenterX 2880 / 2880 ∧
     sunburstCenterY 450 / 450 = sunburstCenterY 1620 / 1620) :=
  ⟨by norm_num, by norm_num, by norm_num, by norm_num,
   seeded_composition_resolution_independent (Trig.mk (fun q => q) (fun q => q))
     3 (4/5) (7/10) 800 450 2880 1620
     (by norm_num) (by norm_num) (by norm_num) (by norm_num)⟩

/-! ### Alpha coverage of the compositor (C2)

`createGradient` (lines 923-963) applies the zoom transform
`translate(cx, cy); scale(z, z); translate(-cx, -cy)` before any
painting, so the opaque base fill `fillRect(0, 0, width, height)` covers
the device-space rectangle from `(w/2)(1-z)` to `(w/2)(1+z)`
horizontally (and similarly vertically).  Every later painting
operation, whatever its blend mode, composites its source over the
backdrop with the standard alpha rule `αout = αs + αb(1-αs)`.  Only the
alpha channel is modelled here. -/

/-- Alpha compositing rule shared by all canvas blend modes used in the
source (source-over alpha): result alpha from backdrop and source. -/
def compositeAlpha (backdrop source : ℚ) : ℚ := source + backdrop * (1 - source)

/-- Alpha of pixel `(px, py)` after `clearRect` and the zoomed base fill:
1 when the pixel's unit square is inside the zoomed device rectangle of
`fillRect(0, 0, w, h)`, else 0 (the cleared value). -/
def baseFillAlpha (w h z : ℚ) (px py : ℕ) : ℚ :=
  if w/2 - w*z/2 ≤ (px : ℚ) ∧ (px : ℚ) + 1 ≤ w/2 + w*z/2
      ∧ h/2 - h*z/2 ≤ (py : ℚ) ∧ (py : ℚ) + 1 ≤ h/2 + h*z/2 then 1 else 0

/-- Alpha of a pixel after the base fill and a sequence of painting
operations with the given per-pixel source alphas. -/
def compositorAlpha (w h z : ℚ) (px py : ℕ) (σs : List ℚ) : ℚ :=
  σs.foldl compositeAlpha (baseFillAlpha w h z px py)

/-- Seeded shape count of the organic no-blob branch as a list length. -/
def organicShapeCountN (ι δ : ℚ) : ℕ := (organicShapeCount ι δ).toNat

/-- Random overlay count of the organic no-blob branch (lines 292-293):
`floor((intensity - 0.5) * 2 * density * 6)` when intensity > 0.5. -/
def organicOverlayCount (ι δ : ℚ) : ℕ :=
  if ι > 1/2 then (⌊(ι - 1/2) * 2 * δ * 6⌋).toNat else 0

/-- Random accent count of the organic no-blob branch (lines 317-318):
`floor((intensity - 0.7) * 3.33 * density * 3)` when intensity > 0.7. -/
def organicAccentCount (ι δ : ℚ) : ℕ :=
  if ι > 7/10 then (⌊(ι - 7/10) * (333/100) * δ * 3⌋).toNat else 0

/-- Source alpha contributed at pixel `(px, py)` by the `i`-th seeded
organic shape: the shape is the disk of the seeded center and radius,
mapped through the zoom transform; inside the disk the radial gradient
contributes the abstracted alpha profile `inner i`, outside it
contributes nothing. -/
def organicShapeAlphaAt (T : Trig) (inner : ℕ → ℚ) (ι δ w h z : ℚ)
    (px py i : ℕ) : ℚ :=
  let x := w/2 + (organicSeedBaseX T i w - w/2) * z
  let y := h/2 + (organicSeedBaseY T i h - h/2) * z
  let r := organicSeedRadius T i ι δ w h * z
  if ((px : ℚ) - x)^2 + ((py : ℚ) - y)^2 < r^2 then inner i else 0

/-- Alpha at pixel `(px, py)` after the full organic no-blob pass: base
fill, the seeded shapes, then the random overlay and accent shapes with
abstracted source alphas `acc`. -/
def organicAlphaAt (T : Trig) (inner acc : ℕ → ℚ) (ι δ w h z : ℚ)
    (px py : ℕ) : ℚ :=
  compositorAlpha w h z px py
    ((List.range (organicShapeCountN ι δ)).map
        (organicShapeAlphaAt T inner ι δ w h z px py)
      ++ (List.range (organicOverlayCount ι δ + organicAccentCount ι δ)).map acc)

theorem foldl_compositeAlpha_one (l : List ℚ) : l.foldl compositeAlpha 1 = 1 := by
  induction l with
  | nil => rfl
  | cons a l ih =>
    have h1 : compositeAlpha 1 a = 1 := by
      unfold compositeAlpha
      ring
    simpa [h1] using ih

/-- C2 (amended): for zoom at least 1 the base fill covers every pixel of
the target, and since every later painting operation only composites
source-over in alpha, every pixel of the compositor output has full
alpha, whatever source alphas the shapes contribute.  This covers all
five styles: each style is the base fill followed by some sequence of
painting operations. -/
theorem compositor_fully_opaque_for_zoom_ge_one (σs : List ℚ) (w h z : ℚ)
    (px py : ℕ) (hz : 1 ≤ z) (hx : (px : ℚ) + 1 ≤ w) (hy : (py : ℚ) + 1 ≤ h) :
    compositorAlpha w h z px py σs = 1 := by
  have hw : (0 : ℚ) ≤ w := by
    have : (0 : ℚ) ≤ (px : ℚ) := Nat.cast_nonneg px
    linarith
  have hh : (0 : ℚ) ≤ h := by
    have : (0 : ℚ) ≤ (py : ℚ) := Nat.cast_nonneg py
    linarith
  have hbase : baseFillAlpha w h z px py = 1 := by
    unfold baseFillAlpha
    rw [if_pos]
    refine ⟨?_, ?_, ?_, ?_⟩
    · nlinarith [Nat.cast_nonneg (α := ℚ) px]
    · nlinarith
    · nlinarith [Nat.cast_nonneg (α := ℚ) py]
    · nlinarith
  unfold compositorAlpha
  rw [hbase]
  exact foldl_compositeAlpha_one σs

/-- Witness for C2 (amended) at zoom 1, an 800 by 800 target, corner
pixel (0, 0), and the alpha sources of two shapes. -/
theorem compositor_fully_opaque_witness :
    (1 : ℚ) ≤ 1 ∧ ((0 : ℕ) : ℚ) + 1 ≤ 800 ∧ ((0 : ℕ) : ℚ) + 1 ≤ 800 ∧
    compositorAlpha 800 800 1 0 0 [1/2, 1/4] = 1 :=
  ⟨by norm_num, by norm_num, by norm_num,
   compositor_fully_opaque_for_zoom_ge_one [1/2, 1/4] 800 800 1 0 0
     (by norm_num) (by norm_num) (by norm_num)⟩

theorem organicShapeAlphaAt_zero_intensity (T : Trig) (inner : ℕ → ℚ)
    (δ w h z : ℚ) (px py i : ℕ) :
    organicShapeAlphaAt T inner 0 δ w h z px py i = 0 := by
  unfold organicShapeAlphaAt organicSeedRadius
  rw [if_neg]
  intro hlt
  nlinarith [sq_nonneg ((px : ℚ) - (w/2 + (organicSeedBaseX T i w - w/2) * z)),
             sq_nonneg ((py : ℚ) - (h/2 + (organicSeedBaseY T i h - h/2) * z))]

theorem organicAlphaAt_corner_zero (T : Trig) (inner acc : ℕ → ℚ) :
    organicAlphaAt T inner acc 0 0 800 800 (1/2) 0 0 = 0 := by
  have hcount : organicShapeCountN 0 0 = 2 := by
    unfold organicShapeCountN organicShapeCount
    norm_num
    decide
  have hov : organicOverlayCount 0 0 = 0 := by
    unfold organicOverlayCount
    norm_num
  have hac : organicAccentCount 0 0 = 0 := by
    unfold organicAccentCount
    norm_num
  have hbase : baseFillAlpha 800 800 (1/2) 0 0 = 0 := by
    unfold baseFillAlpha
    rw [if_neg]
    intro hc
    obtain ⟨h1, -, -, -⟩ := hc
    norm_num at h1
  unfold organicAlphaAt compositorAlpha
  rw [hcount, hov, hac, hbase]
  simp only [Nat.add_zero, List.range_zero, List.map_nil, List.append_nil]
  have : List.range 2 = [0, 1] := by decide
  rw [this]
  simp only [List.map_cons, List.map_nil, List.foldl_cons, List.foldl_nil,
    organicShapeAlphaAt_zero_intensity]
  unfold compositeAlpha
  ring

/-- Counterexample for C2: the claimed full opacity fails for zoom below
1.  At zoom 1/2 on an 800 by 800 target with intensity 0 and density 0
(both inside the claimed ranges), the corner pixel (0, 0) lies outside
the zoomed base fill and no shape reaches it, so its alpha is 0, not
full. -/
theorem compositor_not_opaque_below_zoom_one :
    ¬ (∀ (T : Trig) (inner acc : ℕ → ℚ) (ι δ z w h : ℚ) (px py : ℕ),
        0 ≤ ι → ι ≤ 6/5 → 0 ≤ δ → δ ≤ 3/2 → 1/5 ≤ z → z ≤ 3 →
        (px : ℚ) + 1 ≤ w → (py : ℚ) + 1 ≤ h →
        organicAlphaAt T inner acc ι δ w h z px py = 1) := by
  intro hcl
  have h := hcl (Trig.mk (fun q => q) (fun q => q)) (fun _ => 0) (fun _ => 0)
    0 0 (1/2) 800 800 0 0 (le_refl 0) (by norm_num) (le_refl 0) (by norm_num)
    (by norm_num) (by norm_num) (by norm_num) (by norm_num)
  rw [organicAlphaAt_corner_zero] at h
  exact absurd h (by norm_num)

/-! ### Palette and region extraction (ControlsPanel,
extractColorBlobsFromImage and helpers) -/

/-- A decoded image's RGBA pixel buffer: `data i` is the byte at index
`i` of the `ImageData.data` array. -/
structure ImageDataM where
  width : ℕ
  height : ℕ
  data : ℕ → ℕ

/-- The loop indices `0, 2, 4, ...` below `len` (`for (v = 0; v < len;
v += 2)`). -/
def sampleCoords (len : ℕ) : List ℕ :=
  (List.range len).filter (fun i => i % 2 == 0)

/-- All sampled `(x, y)` pixel coordinates, outer loop over `y`, inner
over `x`, both stepping by 2. -/
def sampledPairs (img : ImageDataM) : List (ℕ × ℕ) :=
  (sampleCoords img.height).flatMap (fun y =>
    (sampleCoords img.width).map (fun x => (x, y)))

/-- One entry of the `colorRegions` map: pixel count, quantized RGB,
the pushed normalized positions, running average position, and maximum
intensity. -/
structure Region where
  count : ℕ
  rgb : ℕ × ℕ × ℕ
  positions : List (ℚ × ℚ)
  avgX : ℚ
  avgY : ℚ
  maxIntensity : ℚ

/-- Channel quantization to buckets of width 20:
`Math.floor(c / 20) * 20`. -/
def quantize20 (c : ℕ) : ℕ := c / 20 * 20

/-- Update of an existing region entry: increment count, push the
position, update the running averages with the new count, and take the
max intensity. -/
def updateRegion (key : ℕ × ℕ × ℕ) (pos : ℚ × ℚ) (inten : ℚ)
    (l : List ((ℕ × ℕ × ℕ) × Region)) : List ((ℕ × ℕ × ℕ) × Region) :=
  l.map (fun e =>
    if e.1 = key then
      (e.1,
       Region.mk (e.2.count + 1) e.2.rgb (e.2.positions ++ [pos])
         ((e.2.avgX * e.2.count + pos.1) / (e.2.count + 1))
         ((e.2.avgY * e.2.count + pos.2) / (e.2.count + 1))
         (max e.2.maxIntensity inten))
    else e)

/-- Processing of one sampled pixel: skip when its alpha byte is below
128, otherwise insert or update the region keyed by the quantized RGB.
The JavaScript `Map` preserves insertion order, modelled by an
association list extended at the end.  `sqrtQ` abstracts `Math.sqrt`;
the intensity is `sqrt(r*r + g*g + b*b) / 255`. -/
def stepRegion (sqrtQ : ℚ → ℚ) (img : ImageDataM)
    (regions : List ((ℕ × ℕ × ℕ) × Region)) (p : ℕ × ℕ) :
    List ((ℕ × ℕ × ℕ) × Region) :=
  if img.data ((p.2 * img.width + p.1) * 4 + 3) < 128 then regions
  else
    let r := img.data ((p.2 * img.width + p.1) * 4)
    let g := img.data ((p.2 * img.width + p.1) * 4 + 1)
    let b := img.data ((p.2 * img.width + p.1) * 4 + 2)
    let key := (quantize20 r, quantize20 g, quantize20 b)
    let pos : ℚ × ℚ := ((p.1 : ℚ) / img.width, (p.2 : ℚ) / img.height)
    let inten := sqrtQ ((r : ℚ) * r + (g : ℚ) * g + (b : ℚ) * b) / 255
    if (regions.lookup key).isSome then updateRegion key pos inten regions
    else regions ++ [(key, Region.mk 1 key [pos] pos.1 pos.2 inten)]

/-- The accumulated `colorRegions` map over all sampled pixels. -/
def colorRegions (sqrtQ : ℚ → ℚ) (img : ImageDataM) :
    List ((ℕ × ℕ × ℕ) × Region) :=
  (sampledPairs img).foldl (stepRegion sqrtQ img) []

/-- Sorting key of a region: `count * maxIntensity`. -/
def regionRank (r : Region) : ℚ := (r.count : ℚ) * r.maxIntensity

/-- Model of `sortedRegions`: regions sorted by `count * maxIntensity` descending
(stable, like `Array.prototype.sort`), keeping the top 12. -/
def sortedRegions (sqrtQ : ℚ → ℚ) (img : ImageDataM) :
    List ((ℕ × ℕ × ℕ) × Region) :=
  ((colorRegions sqrtQ img).mergeSort
    (fun a b => decide (regionRank b.2 ≤ regionRank a.2))).take 12

/-- Model of `colorDistance`: Euclidean RGB distance, `Math.sqrt` abstracted. -/
def colorDistance (sqrtQ : ℚ → ℚ) (c1 c2 : ℕ × ℕ × ℕ) : ℚ :=
  sqrtQ (((c2.1 : ℚ) - c1.1)^2 + ((c2.2.1 : ℚ) - c1.2.1)^2
    + ((c2.2.2 : ℚ) - c1.2.2)^2)

/-- Model of `findClosestBrandColor`: fold over `BRAND_COLORS` keeping the entry
of least distance; the initial minimum distance is `Infinity`, modelled
as `none`, and the initial closest color is `BRAND_COLORS[0]`. -/
def findClosestBrandColor (sqrtQ : ℚ → ℚ) (target : ℕ × ℕ × ℕ) : Color :=
  (BRAND_COLORS.foldl
    (fun acc c =>
      let d := colorDistance sqrtQ target c.rgb
      match acc.2 with
      | none => (c, some d)
      | some m => if d < m then (c, some d) else acc)
    (BRAND_COLORS.headD (Color.mk "" "" (0, 0, 0)), none)).1

/-- The `ColorBlob` record. -/
structure Blob where
  color : Color
  x : ℚ
  y : ℚ
  radius : ℚ
  intensity : ℚ

/-- Blob emission for one kept region (ControlsPanel lines 180-211).
When the region has more than 20 sampled positions, `numBlobs =
min(3, floor(positions.length / 30))` blobs are emitted, one per
contiguous slice of the position list, each at the slice's average
position with `radius = 0.15 + rand * 0.15` and intensity
`maxIntensity * (0.7 + rand * 0.3)`; otherwise a single blob is emitted
at the region's running average position with `radius = 0.1 + rand *
0.2`.  `rand` abstracts the successive `Math.random()` draws. -/
def emitRegionBlobs (brand : Color) (reg : Region) (rand : ℕ → ℚ) :
    List Blob :=
  if reg.positions.length > 20 then
    let numBlobs := min 3 (reg.positions.length / 30)
    (List.range numBlobs).map (fun i =>
      let startIndex := i * reg.positions.length / numBlobs
      let endIndex := (i + 1) * reg.positions.length / numBlobs
      let cluster := (reg.positions.drop startIndex).take (endIndex - startIndex)
      let clusterX := (cluster.map Prod.fst).sum / (cluster.length : ℚ)
      let clusterY := (cluster.map Prod.snd).sum / (cluster.length : ℚ)
      Blob.mk brand clusterX clusterY (3/20 + rand (2 * i) * (3/20))
        (reg.maxIntensity * (7/10 + rand (2 * i + 1) * (3/10))))
  else
    [Blob.mk brand reg.avgX reg.avgY (1/10 + rand 0 * (1/5)) reg.maxIntensity]

/-- Model of `extractColorBlobsFromImage`: accumulate regions, rank and keep the
top 12, emit blobs per region mapped to the closest brand color, and
derive the palette as the blob colors deduplicated by hex (first seen
order), keeping at most 6. -/
def extractColorBlobsFromImage (sqrtQ : ℚ → ℚ) (rand : ℕ → ℚ)
    (img : ImageDataM) : List Color × List Blob :=
  let regs := sortedRegions sqrtQ img
  let blobs := regs.enum.flatMap (fun e =>
    emitRegionBlobs (findClosestBrandColor sqrtQ e.2.2.rgb) e.2.2
      (fun n => rand (e.1 * 6 + n)))
  let colors := (blobs.foldl
    (fun (acc : List Color) b =>
      if acc.any (fun c => c.hex == b.color.hex) then acc else acc ++ [b.color])
    []).take 6
  (colors, blobs)

/-- The palette decision of `handleImageUpload` (lines 342-350): keep the
extracted colors when nonempty, otherwise fall back to
`getRandomMidToneColors(3)`, i.e. the first 3 entries of the shuffled
mid-tone pool. -/
def handleExtractedPalette (extracted shuffled : List Color) : List Color :=
  if extracted.length > 0 then extracted else shuffled.take 3

/-! ### C7: fully transparent image -/

theorem stepRegion_skip (sqrtQ : ℚ → ℚ) (img : ImageDataM)
    (halpha : ∀ i : ℕ, img.data (4 * i + 3) < 128)
    (acc : List ((ℕ × ℕ × ℕ) × Region)) (p : ℕ × ℕ) :
    stepRegion sqrtQ img acc p = acc := by
  unfold stepRegion
  rw [if_pos]
  have h := halpha (p.2 * img.width + p.1)
  have e : (p.2 * img.width + p.1) * 4 + 3 = 4 * (p.2 * img.width + p.1) + 3 := by
    ring
  rw [e]
  exact h

theorem colorRegions_nil (sqrtQ : ℚ → ℚ) (img : ImageDataM)
    (halpha : ∀ i : ℕ, img.data (4 * i + 3) < 128) :
    colorRegions sqrtQ img = [] := by
  unfold colorRegions
  generalize sampledPairs img = l
  induction l with
  | nil => rfl
  | cons p t ih =>
    rw [List.foldl_cons, stepRegion_skip sqrtQ img halpha]
    exact ih

/-- C7: on an image whose every pixel has alpha below 128, extraction
returns zero colors, and the upload handler then substitutes the first 3
entries of the shuffled mid-tone pool: a palette of exactly 3 colors,
never an empty palette (and every step is a total function, so no error
is thrown). -/
theorem transparent_image_yields_three_color_fallback
    (sqrtQ : ℚ → ℚ) (rand : ℕ → ℚ) (img : ImageDataM) (shuffled : List Color)
    (halpha : ∀ i : ℕ, img.data (4 * i + 3) < 128)
    (hperm : shuffled.Perm midTonePool) :
    (extractColorBlobsFromImage sqrtQ rand img).1 = [] ∧
    handleExtractedPalette (extractColorBlobsFromImage sqrtQ rand img).1 shuffled
      = shuffled.take 3 ∧
    (handleExtractedPalette (extractColorBlobsFromImage sqrtQ rand img).1
        shuffled).length = 3 := by
  have hreg := colorRegions_nil sqrtQ img halpha
  have hext : (extractColorBlobsFromImage sqrtQ rand img).1 = [] := by
    unfold extractColorBlobsFromImage sortedRegions
    rw [hreg, List.mergeSort_nil]
    rfl
  have hlen : shuffled.length = 21 := by
    rw [hperm.length_eq]
    rfl
  have hhandle : handleExtractedPalette
      (extractColorBlobsFromImage sqrtQ rand img).1 shuffled = shuffled.take 3 := by
    rw [hext]
    rfl
  refine ⟨hext, hhandle, ?_⟩
  rw [hhandle, List.length_take, hlen]
  rfl

/-- Witness for C7 on a 2 by 2 all-zero (hence fully transparent) image,
with the identity oracle for `Math.sqrt`, the zero oracle for
`Math.random`, and the unshuffled mid-tone pool. -/
theorem transparent_image_fallback_witness :
    (∀ i : ℕ, (ImageDataM.mk 2 2 (fun _ => 0)).data (4 * i + 3) < 128) ∧
    List.Perm midTonePool midTonePool ∧
    (extractColorBlobsFromImage (fun q => q) (fun _ => 0)
        (ImageDataM.mk 2 2 (fun _ => 0))).1 = [] ∧
    (handleExtractedPalette
        (extractColorBlobsFromImage (fun q => q) (fun _ => 0)
          (ImageDataM.mk 2 2 (fun _ => 0))).1 midTonePool).length = 3 := by
  have h := transparent_image_yields_three_color_fallback (fun q => q) (fun _ => 0)
    (ImageDataM.mk 2 2 (fun _ => 0)) midTonePool
    (fun i => by norm_num) (List.Perm.refl _)
  exact ⟨fun i => by norm_num, List.Perm.refl _, h.1, h.2.2⟩

/-! ### C8: per-region blob emission -/

/-- Counterexample region for C8: 25 sampled positions. -/
def regTwentyFive : Region :=
  Region.mk 25 (0, 0, 0) (List.replicate 25 ((0 : ℚ), (0 : ℚ))) 0 0 1

/-- A sample brand color for concrete instantiations. -/
def brandSample : Color := Color.mk "Blue 500" "#168EFF" (22, 142, 255)

/-- Counterexample for C8: a kept region that contributed 25 sampled
positions (more than 20) emits `min(3, floor(25 / 30)) = 0` blobs, not
at least one as claimed. -/
theorem region_with_25_positions_emits_no_blob :
    20 < regTwentyFive.positions.length ∧
    emitRegionBlobs brandSample regTwentyFive (fun _ => 0) = [] := by
  constructor
  · simp [regTwentyFive]
  · unfold emitRegionBlobs
    rw [if_pos (by simp [regTwentyFive])]
    simp [regTwentyFive]

/-- C8 (amended): for a kept region with more than 20 sampled positions,
exactly `min(3, floor(count / 30))` blobs are emitted (which is zero for
21 to 29 positions and 1 to 3 otherwise), each with radius in
[0.15, 0.30); a region with at most 20 positions emits exactly one blob
at the region's running average position with radius in [0.1, 0.3). -/
theorem emitRegionBlobs_spec (brand : Color) (reg : Region) (rand : ℕ → ℚ)
    (hrand : ∀ n, 0 ≤ rand n ∧ rand n < 1) :
    (reg.positions.length > 20 →
      (emitRegionBlobs brand reg rand).length
          = min 3 (reg.positions.length / 30) ∧
      ∀ b ∈ emitRegionBlobs brand reg rand,
        3/20 ≤ b.radius ∧ b.radius < 3/10) ∧
    (reg.positions.length ≤ 20 →
      emitRegionBlobs brand reg rand
          = [Blob.mk brand reg.avgX reg.avgY (1/10 + rand 0 * (1/5))
              reg.maxIntensity] ∧
      ∀ b ∈ emitRegionBlobs brand reg rand,
        1/10 ≤ b.radius ∧ b.radius < 3/10) := by
  constructor
  · intro h
    have hif : emitRegionBlobs brand reg rand
        = (List.range (min 3 (reg.positions.length / 30))).map (fun i =>
            let startIndex := i * reg.positions.length / min 3 (reg.positions.length / 30)
            let endIndex := (i + 1) * reg.positions.length / min 3 (reg.positions.length / 30)
            let cluster := (reg.positions.drop startIndex).take (endIndex - startIndex)
            let clusterX := (cluster.map Prod.fst).sum / (cluster.length : ℚ)
            let clusterY := (cluster.map Prod.snd).sum / (cluster.length : ℚ)
            Blob.mk brand clusterX clusterY (3/20 + rand (2 * i) * (3/20))
              (reg.maxIntensity * (7/10 + rand (2 * i + 1) * (3/10)))) := by
      unfold emitRegionBlobs
      rw [if_pos h]
    constructor
    · rw [hif, List.length_map, List.length_range]
    · intro b hb
      rw [hif] at hb
      obtain ⟨i, -, rfl⟩ := List.mem_map.mp hb
      have h0 := (hrand (2 * i)).1
      have h1 := (hrand (2 * i)).2
      constructor
      · show (3 : ℚ)/20 ≤ 3/20 + rand (2 * i) * (3/20)
        nlinarith
      · show (3 : ℚ)/20 + rand (2 * i) * (3/20) < 3/10
        nlinarith
  · intro h
    have hif : emitRegionBlobs brand reg rand
        = [Blob.mk brand reg.avgX reg.avgY (1/10 + rand 0 * (1/5))
            reg.maxIntensity] := by
      unfold emitRegionBlobs
      rw [if_neg (by omega)]
    refine ⟨hif, ?_⟩
    intro b hb
    rw [hif] at hb
    have hb' : b = Blob.mk brand reg.avgX reg.avgY (1/10 + rand 0 * (1/5))
        reg.maxIntensity := by
      simpa using hb
    subst hb'
    have h0 := (hrand 0).1
    have h1 := (hrand 0).2
    constructor
    · show (1 : ℚ)/10 ≤ 1/10 + rand 0 * (1/5)
      nlinarith
    · show (1 : ℚ)/10 + rand 0 * (1/5) < 3/10
      nlinarith

/-- Witness region for C8 with a single sampled position. -/
def regSingle : Region := Region.mk 1 (0, 0, 0) [((1 : ℚ)/2, (1 : ℚ)/2)] (1/2) (1/2) 1

/-- Witness for C8: a concentrated region (one position) emits exactly
one blob at its average position, under the zero oracle for
`Math.random`. -/
theorem emitRegionBlobs_witness :
    (∀ n : ℕ, 0 ≤ (fun _ : ℕ => (0 : ℚ)) n ∧ (fun _ : ℕ => (0 : ℚ)) n < 1) ∧
    regSingle.positions.length ≤ 20 ∧
    emitRegionBlobs brandSample regSingle (fun _ => 0)
      = [Blob.mk brandSample (1/2) (1/2) (1/10 + 0 * (1/5)) 1] := by
  have h := ((emitRegionBlobs_spec brandSample regSingle (fun _ => 0)
      (fun n => by norm_num)).2 (by simp [regSingle])).1
  exact ⟨fun n => by norm_num, by simp [regSingle], h⟩
